import Mathlib

/-!
# Verification of the eblu Bluetooth device manager core

Shallow embedding of the device reconciliation and search core of the
`eblu` Raycast extension (baseline: the fuller tsx source). Strings are
modelled as `List Char`; JavaScript `toLowerCase` is modelled per
character by `Char.toLower`; `Array.prototype.sort` with a consistent
comparator is modelled by `List.insertionSort` over the relation
"comparator ≤ 0" (the ECMAScript guarantee for a consistent comparator is
exactly that the output is sorted with respect to that relation);
`String.prototype.localeCompare` is modelled at primary collation
strength as lexicographic comparison of the lowercased strings.
Fallible external commands are passed in as explicit outcome values, and
side effects (issuing a command, scheduling the delayed re-fetch,
reporting an error) are returned as explicit result fields.
-/

namespace Eblu

/-- JavaScript strings, modelled as lists of characters. -/
abbrev Str := List Char

/-- JavaScript lowercasing of a string, modelled per character. -/
def lowerStr (s : Str) : Str := s.map Char.toLower

/-- Splitting a string at every character satisfying `p`, keeping empty
pieces, as JavaScript `split` does for a single-character separator:
`"".split(sep) = [""]`, `"a  b".split(" ") = ["a", "", "b"]`. -/
def splitOnPred (p : Char → Bool) : Str → List Str
  | [] => [[]]
  | c :: cs =>
    if p c then [] :: splitOnPred p cs
    else
      match splitOnPred p cs with
      | [] => [[c]]
      | t :: ts => (c :: t) :: ts

/-- Model of the split the source performs on the lowered query: the
source splits on the single space character only. -/
def splitSpace (s : Str) : List Str := splitOnPred (fun c => c = ' ') s

/-- Splitting on every whitespace character; used only to state the
reading of the spec (whitespace-separated terms) for comparison with
the space-only split of the source. -/
def splitWhitespace (s : Str) : List Str := splitOnPred Char.isWhitespace s

/-- Function `fuzzyMatch` of the source: one greedy left-to-right
scan over `text`, advancing in `pattern` on every character match, and
succeeding iff the whole pattern was consumed. -/
def fuzzyMatch : Str → Str → Bool
  | _, [] => true
  | [], _ :: _ => false
  | t :: ts, p :: ps => if t = p then fuzzyMatch ts ps else fuzzyMatch ts (p :: ps)

/-- The canonical device entity (`BluetoothDevice` in the source).
`address` is `Option Str` because at runtime `deviceData.device_address`
may be `undefined` even though the TypeScript type says `string`.
`lastConnected` records presence of the `lastConnected: new Date()`
field. -/
structure BluetoothDevice where
  name : Str
  address : Option Str
  connected : Bool
  lastConnected : Bool
  type : Option Str
  batteryLevel : Option Str
  rssi : Option Str
  vendorId : Option Str
  productId : Option Str
  firmwareVersion : Option Str
deriving Repr, DecidableEq

/-- Function `fuzzySearch` of the source: lowercase the
query and both fields, split the query on spaces, and require every term
to greedily match the name or the type (absent type behaves as `""`). -/
def fuzzySearch (device : BluetoothDevice) (searchText : Str) : Bool :=
  let searchLower := lowerStr searchText
  let nameLower := lowerStr device.name
  let typeLower := lowerStr (device.type.getD [])
  let searchTerms := splitSpace searchLower
  searchTerms.all fun term => fuzzyMatch nameLower term || fuzzyMatch typeLower term

/-- The value object of one raw paired-snapshot record
(`RawBluetoothDeviceData[name]`): every field optional at runtime. -/
structure RawDeviceFields where
  device_address : Option Str
  device_minorType : Option Str
  device_batteryLevelMain : Option Str
  device_rssi : Option Str
  device_vendorID : Option Str
  device_productID : Option Str
  device_firmwareVersion : Option Str
deriving Repr, DecidableEq

/-- One raw paired-snapshot record: a single-key object whose key is the
device name (`const [name] = Object.keys(device)`). -/
structure RawRecord where
  name : Str
  fields : RawDeviceFields
deriving Repr, DecidableEq

/-- Normalization of one connected-group record inside `refreshDevices`. -/
def normalizeConnected (r : RawRecord) : BluetoothDevice :=
  { name := r.name
    address := r.fields.device_address
    connected := true
    lastConnected := true
    type := r.fields.device_minorType
    batteryLevel := r.fields.device_batteryLevelMain
    rssi := r.fields.device_rssi
    vendorId := r.fields.device_vendorID
    productId := r.fields.device_productID
    firmwareVersion := r.fields.device_firmwareVersion }

/-- Normalization of one disconnected-group record inside
`refreshDevices` (`lastConnected: undefined`). -/
def normalizeDisconnected (r : RawRecord) : BluetoothDevice :=
  { name := r.name
    address := r.fields.device_address
    connected := false
    lastConnected := false
    type := r.fields.device_minorType
    batteryLevel := r.fields.device_batteryLevelMain
    rssi := r.fields.device_rssi
    vendorId := r.fields.device_vendorID
    productId := r.fields.device_productID
    firmwareVersion := r.fields.device_firmwareVersion }

/-- Lexicographic `≤` on character lists by code point; `lexLe a b`
models `a.localeCompare(b) <= 0` after both sides are reduced to a
common case (see `devLE`). -/
def lexLe : Str → Str → Bool
  | [], _ => true
  | _ :: _, [] => false
  | a :: as, b :: bs => if a < b then true else if b < a then false else lexLe as bs

/-- The sort comparator of `refreshDevices` as a `≤` relation:
`(a, b) => a.connected !== b.connected ? (a.connected ? -1 : 1)
: a.name.localeCompare(b.name)` is `≤ 0` exactly when `a` is connected
(for mixed groups) or the case-insensitive name comparison is `≤ 0`. -/
def devLE (a b : BluetoothDevice) : Bool :=
  if a.connected != b.connected then a.connected
  else lexLe (lowerStr a.name) (lowerStr b.name)

/-- Comparator relation `devLE` as a decidable relation, for
`List.insertionSort`. -/
def devRel (a b : BluetoothDevice) : Prop := devLE a b = true

instance : DecidableRel devRel := fun a b => by
  unfold devRel; infer_instance

/-- The sort call of `refreshDevices`, modelled as a
sort with respect to the comparator relation. -/
def sortDevices (l : List BluetoothDevice) : List BluetoothDevice :=
  List.insertionSort devRel l

/-- Error taxonomy for a refresh (the source reports via
`console.error`). -/
inductive RefreshError where
  | sourceUnparsable
deriving Repr, DecidableEq

/-- Error taxonomy for discovery. `concurrentScanRejected` is declared
so the rejection claimed by the spec is statable; the source never produces
it. -/
inductive DiscoveryError where
  | toolUnavailable
  | scanFailed
  | concurrentScanRejected
deriving Repr, DecidableEq

/-- Error taxonomy for `toggleConnection` (reported via
`console.error`). -/
inductive ToggleError where
  | toolUnavailable
  | commandFailed
deriving Repr, DecidableEq

/-- One entry of the parsed `SPBluetoothDataType` array; each device
group key may be absent (the source defaults an absent group to `[]`
via `|| []`). -/
structure SPEntry where
  device_connected : Option (List RawRecord)
  device_not_connected : Option (List RawRecord)
deriving Repr, DecidableEq

/-- Outcome of `execSync("... system_profiler ...")` followed by
`JSON.parse`:
* `fail` — the command threw or the output was not valid JSON;
* `nullData` — the output parsed to JSON `null` (then `data?.`
  short-circuits the whole chain to `undefined`, so `|| []` yields two
  empty groups);
* `obj sp` — the output parsed to an object, whose
  `SPBluetoothDataType` key holds `sp` (absent key: `none`; then
  `data?.SPBluetoothDataType[0]` throws a TypeError, caught by the
  surrounding try). -/
inductive ProfilerOutput where
  | fail
  | nullData
  | obj (sp : Option (List SPEntry))
deriving Repr, DecidableEq

/-- Evaluation of
`data?.SPBluetoothDataType[0]?.device_connected || []` and its
disconnected twin: `none` means the source code path throws (caught by
the enclosing `try`), `some (conn, disc)` the two extracted record
groups. -/
def extractGroups : ProfilerOutput → Option (List RawRecord × List RawRecord)
  | .fail => none
  | .nullData => some ([], [])
  | .obj none => none
  | .obj (some []) => some ([], [])
  | .obj (some (e :: _)) =>
      some (e.device_connected.getD [], e.device_not_connected.getD [])

/-- The React state cells the core mutates. -/
structure AppState where
  allDevices : List BluetoothDevice
  discoveredDevices : List BluetoothDevice
  isScanning : Bool
  blueutilPath : Option Str
deriving Repr, DecidableEq

/-- Operation `refreshDevices` of the source: extract the connected and
disconnected groups, normalize every record, concatenate, sort with the
comparator, and replace `allDevices`; any throw inside the `try` is
caught, leaving the state unchanged and logging an error. -/
def refreshDevices (out : ProfilerOutput) (st : AppState) :
    AppState × Option RefreshError :=
  match extractGroups out with
  | none => (st, some .sourceUnparsable)
  | some (conn, disc) =>
      let devs := conn.map normalizeConnected ++ disc.map normalizeDisconnected
      ({ st with allDevices := sortDevices devs }, none)

/-- Definition `filteredDevices` of the source:
`searchText ? allDevices.filter(fuzzySearch) : allDevices.slice(0, maxDevices)`
(the empty string is falsy). -/
def filteredDevices (searchText : Str) (allDevices : List BluetoothDevice)
    (maxDevices : Nat) : List BluetoothDevice :=
  if searchText = [] then allDevices.take maxDevices
  else allDevices.filter fun device => fuzzySearch device searchText

/-- The `maxDevices` preference as declared in `package.json`:
default `"5"`, minimum `"1"`, maximum `"20"`. -/
def maxDevicesDefault : Nat := 5

/-- Lower bound of the declared `maxDevices` range. -/
def maxDevicesMin : Nat := 1

/-- Upper bound of the declared `maxDevices` range. -/
def maxDevicesMax : Nat := 20

/-- One raw record of `blueutil --inquiry 10 --format json`: optional
name, address (optional at runtime), optional rssi. `rssi` is kept in
its stringified form (`device.rssi?.toString()`). -/
structure ScanRecord where
  name : Option Str
  address : Option Str
  rssi : Option Str
deriving Repr, DecidableEq

/-- Outcome of the scan command: parsed records, or a throw. -/
inductive ScanOutcome where
  | ok (records : List ScanRecord)
  | fail
deriving Repr, DecidableEq

/-- Result of `startDiscovery`: the new state, whether the external
`--inquiry` command was issued, and the reported error if any. -/
structure DiscoveryResult where
  state : AppState
  scanCommandIssued : Bool
  error : Option DiscoveryError
deriving Repr, DecidableEq

/-- Fallback name for a discovered record lacking a name. -/
def unknownDeviceName : Str := "Unknown Device".data

/-- Placeholder type tag of a discovered record. -/
def newDeviceType : Str := "New Device".data

/-- Normalization of one discovery record inside `startDiscovery`. -/
def normalizeDiscovered (r : ScanRecord) : BluetoothDevice :=
  { name := r.name.getD unknownDeviceName
    address := r.address
    connected := false
    lastConnected := false
    type := some newDeviceType
    batteryLevel := none
    rssi := r.rssi
    vendorId := none
    productId := none
    firmwareVersion := none }

/-- Operation `startDiscovery` of the source: throw if no blueutil path (caught:
scanning flag cleared, error toast); otherwise set the scanning flag,
snapshot the known addresses, issue the scan command, and on success
replace the discovered set with the records whose address is not among
the snapshot (`!existingAddresses.includes(device.address)`), clearing
the flag; a scan failure clears the flag and reports an error. The
scanning flag is read nowhere. -/
def startDiscovery (outcome : ScanOutcome) (st : AppState) : DiscoveryResult :=
  match st.blueutilPath with
  | none =>
      { state := { st with isScanning := false }
        scanCommandIssued := false
        error := some .toolUnavailable }
  | some _ =>
      let existingAddresses := st.allDevices.map (·.address)
      match outcome with
      | .fail =>
          { state := { st with isScanning := false }
            scanCommandIssued := true
            error := some .scanFailed }
      | .ok records =>
          let discovered :=
            (records.filter fun r => !(decide (r.address ∈ existingAddresses))).map
              normalizeDiscovered
          { state := { st with discoveredDevices := discovered, isScanning := false }
            scanCommandIssued := true
            error := none }

/-- The blueutil verbs the lifecycle controller issues. -/
inductive BlueutilVerb where
  | connectVerb
  | disconnectVerb
deriving Repr, DecidableEq

/-- Outcome of one external control command. -/
inductive CmdOutcome where
  | ok
  | fail
deriving Repr, DecidableEq

/-- Result of `toggleConnection`: the (unchanged) state, the issued
command if any, the scheduled re-fetch delay in milliseconds if one was
scheduled, and the reported error if any. -/
structure ToggleResult where
  state : AppState
  issuedCommand : Option (BlueutilVerb × Str)
  scheduledRefetchDelayMs : Option Nat
  error : Option ToggleError
deriving Repr, DecidableEq

/-- Operation `toggleConnection` of the source: throw if
the blueutil path is unset; otherwise issue `--disconnect`/`--connect`
and, only after `execSync` returns, `setTimeout(refreshDevices, 1000)`.
A throw anywhere in the `try` is caught and logged, skipping the
`setTimeout`. -/
def toggleConnection (outcome : CmdOutcome) (address : Str) (isConnected : Bool)
    (st : AppState) : ToggleResult :=
  match st.blueutilPath with
  | none =>
      { state := st, issuedCommand := none
        scheduledRefetchDelayMs := none, error := some .toolUnavailable }
  | some _ =>
      let verb : BlueutilVerb := if isConnected then .disconnectVerb else .connectVerb
      match outcome with
      | .fail =>
          { state := st, issuedCommand := some (verb, address)
            scheduledRefetchDelayMs := none, error := some .commandFailed }
      | .ok =>
          { state := st, issuedCommand := some (verb, address)
            scheduledRefetchDelayMs := some 1000, error := none }

/-- The two sections of the rendered list. -/
structure RenderedList where
  discoveredSection : List BluetoothDevice
  pairedSection : List BluetoothDevice
deriving Repr, DecidableEq

/-- The `Command` render: the Discovered Devices section maps over the
whole discovered list (behind a length guard), the Paired Devices
section maps over `filteredDevices`. -/
def renderCommand (st : AppState) (searchText : Str) (maxDevices : Nat) :
    RenderedList :=
  { discoveredSection :=
      if st.discoveredDevices.length > 0 then st.discoveredDevices else []
    pairedSection := filteredDevices searchText st.allDevices maxDevices }

/-! ## Helper lemmas -/

/-- An empty pattern always matches. -/
theorem fuzzyMatch_nil (t : Str) : fuzzyMatch t [] = true := by
  cases t <;> rfl

/-- The greedy scan of `fuzzyMatch` decides exactly the subsequence
relation: `fuzzyMatch text pattern` holds iff `pattern` is a sublist of
`text`. -/
theorem fuzzyMatch_iff_sublist (t p : Str) :
    fuzzyMatch t p = true ↔ p.Sublist t := by
  induction t generalizing p with
  | nil =>
    cases p with
    | nil => simp [fuzzyMatch]
    | cons q qs => simp [fuzzyMatch]
  | cons x ts ih =>
    cases p with
    | nil => simp [fuzzyMatch, fuzzyMatch_nil]
    | cons q qs =>
      by_cases h : x = q
      · subst h
        have e : fuzzyMatch (x :: ts) (x :: qs) = fuzzyMatch ts qs := by
          simp [fuzzyMatch]
        rw [e, ih]
        exact (List.cons_sublist_cons).symm
      · simp only [fuzzyMatch, if_neg h]
        rw [ih]
        constructor
        · exact fun hs => hs.cons x
        · intro hs
          cases hs with
          | cons _ hs' => exact hs'
          | cons₂ _ hs' => exact absurd rfl h

/-- Totality of the lexicographic character-list order. -/
theorem lexLe_total (a b : Str) : lexLe a b = true ∨ lexLe b a = true := by
  induction a generalizing b with
  | nil => left; rfl
  | cons x as ih =>
    cases b with
    | nil => right; rfl
    | cons y bs =>
      rcases lt_trichotomy x y with h | h | h
      · left; simp [lexLe, h]
      · subst h
        rcases ih bs with h' | h'
        · left; simp [lexLe, lt_irrefl, h']
        · right; simp [lexLe, lt_irrefl, h']
      · right; simp [lexLe, h]

/-- Transitivity of the lexicographic character-list order. -/
theorem lexLe_trans {a b c : Str} (hab : lexLe a b = true)
    (hbc : lexLe b c = true) : lexLe a c = true := by
  induction a generalizing b c with
  | nil => rfl
  | cons x as ih =>
    cases b with
    | nil => simp [lexLe] at hab
    | cons y bs =>
      cases c with
      | nil => simp [lexLe] at hbc
      | cons z cs =>
        by_cases hxy : x < y
        · by_cases hyz : y < z
          · simp [lexLe, lt_trans hxy hyz]
          · by_cases hzy : z < y
            · simp [lexLe, hyz, hzy] at hbc
            · have hyz' : y = z := le_antisymm (not_lt.mp hzy) (not_lt.mp hyz)
              subst hyz'
              simp [lexLe, hxy]
        · by_cases hyx : y < x
          · simp [lexLe, hxy, hyx] at hab
          · have hxy' : x = y := le_antisymm (not_lt.mp hyx) (not_lt.mp hxy)
            subst hxy'
            simp only [lexLe, if_neg (lt_irrefl x)] at hab
            by_cases hxz : x < z
            · simp [lexLe, hxz]
            · by_cases hzx : z < x
              · simp [lexLe, hxz, hzx] at hbc
              · have hxz' : x = z := le_antisymm (not_lt.mp hzx) (not_lt.mp hxz)
                subst hxz'
                simp only [lexLe, if_neg (lt_irrefl x)] at hbc ⊢
                exact ih hab hbc

/-- Totality of the device comparator. -/
theorem devLE_total (a b : BluetoothDevice) :
    devLE a b = true ∨ devLE b a = true := by
  unfold devLE
  cases ha : a.connected <;> cases hb : b.connected <;> simp [ha, hb]
  · exact lexLe_total _ _
  · exact lexLe_total _ _

/-- Transitivity of the device comparator. -/
theorem devLE_trans {a b c : BluetoothDevice} (hab : devLE a b = true)
    (hbc : devLE b c = true) : devLE a c = true := by
  unfold devLE at hab hbc ⊢
  cases ha : a.connected <;> cases hb : b.connected <;> cases hc : c.connected <;>
      simp [ha, hb, hc] at hab hbc ⊢
  · exact lexLe_trans hab hbc
  · exact lexLe_trans hab hbc

instance : IsTotal BluetoothDevice devRel := ⟨devLE_total⟩

instance : IsTrans BluetoothDevice devRel :=
  ⟨fun _ _ _ hab hbc => devLE_trans hab hbc⟩

/-- The refresh sort produces a list pairwise ordered by the
comparator. -/
theorem sortDevices_sorted (l : List BluetoothDevice) :
    List.Sorted devRel (sortDevices l) :=
  List.sorted_insertionSort devRel l

/-- The refresh sort permutes its input. -/
theorem sortDevices_perm (l : List BluetoothDevice) :
    (sortDevices l).Perm l :=
  List.perm_insertionSort devRel l

/-- Unfolding the comparator into the two ordering facts the spec
states: connected-before-disconnected, and case-insensitive name order
within a group. -/
theorem devLE_imp {a b : BluetoothDevice} (h : devLE a b = true) :
    (b.connected = true → a.connected = true) ∧
      (a.connected = b.connected →
        lexLe (lowerStr a.name) (lowerStr b.name) = true) := by
  unfold devLE at h
  cases ha : a.connected <;> cases hb : b.connected <;>
      simp [ha, hb] at h ⊢ <;> assumption

/-! ## Concrete fixtures -/

/-- A sample address. -/
def addrAA : Str := "aa:bb".data

/-- A second, distinct sample address. -/
def addrCC : Str := "cc:dd".data

/-- Raw metadata carrying only an (optional) address. -/
def fieldsWithAddress (addr : Option Str) : RawDeviceFields :=
  ⟨addr, none, none, none, none, none, none⟩

/-- A connected-group record with address `addrAA`. -/
def recDupConnected : RawRecord := ⟨"x".data, fieldsWithAddress (some addrAA)⟩

/-- A disconnected-group record repeating address `addrAA`. -/
def recDupDisconnected : RawRecord := ⟨"y".data, fieldsWithAddress (some addrAA)⟩

/-- A disconnected-group record with the distinct address `addrCC`. -/
def recDistinct : RawRecord := ⟨"y".data, fieldsWithAddress (some addrCC)⟩

/-- Profiler output repeating one address across the two groups. -/
def dupAddressOutput : ProfilerOutput :=
  .obj (some [⟨some [recDupConnected], some [recDupDisconnected]⟩])

/-- Profiler output with two distinct addresses. -/
def distinctAddressOutput : ProfilerOutput :=
  .obj (some [⟨some [recDupConnected], some [recDistinct]⟩])

/-- The initial state. -/
def emptyState : AppState := ⟨[], [], false, none⟩

/-- A state in which a scan is in flight and the tool path is set. -/
def scanningState : AppState := ⟨[], [], true, some "blueutil".data⟩

/-- A state whose blueutil path is set, with no devices. -/
def pathState : AppState := ⟨[], [], false, some "blueutil".data⟩

/-- A connected-group record lacking the address field. -/
def recNoAddress : RawRecord := ⟨"x".data, fieldsWithAddress none⟩

/-- Profiler output containing the address-less record. -/
def noAddressOutput : ProfilerOutput :=
  .obj (some [⟨some [recNoAddress], some []⟩])

/-- A device named `ab` with no type. -/
def devAB : BluetoothDevice :=
  ⟨"ab".data, some addrAA, false, false, none, none, none, none, none, none⟩

/-- A query whose two terms are separated by a tab instead of a space. -/
def tabQuery : Str := ['a', '\t', 'b']

/-- A known connected device used in retention and discovery tests. -/
def knownDevice : BluetoothDevice :=
  ⟨"x".data, some addrAA, true, true, none, none, none, none, none, none⟩

/-- A state holding one known device, no tool path. -/
def oneDeviceState : AppState := ⟨[knownDevice], [], false, none⟩

/-- Parsable output whose only entry lacks both device group keys. -/
def missingGroupsOutput : ProfilerOutput := .obj (some [⟨none, none⟩])

/-- A scan record whose address is not yet known. -/
def freshScanRecord : ScanRecord := ⟨none, some addrCC, none⟩

/-- A state holding one known device and the tool path. -/
def knownState : AppState := ⟨[knownDevice], [], false, some "blueutil".data⟩

/-! ## Claims -/

/-- C1 is refuted: a refresh performs no de-duplication, so when the
same address occurs in both the connected and the disconnected group of
the source output, the refresh succeeds (no error) yet the resulting
known-device set contains two entries with equal address. -/
theorem C1_counterexample :
    (refreshDevices dupAddressOutput emptyState).2 = none ∧
    ¬ (((refreshDevices dupAddressOutput emptyState).1.allDevices.map
        (fun d => d.address)).Nodup) := by
  decide

/-- C1 (amended): a refresh never de-duplicates; the known-device set
after a successful refresh has pairwise distinct addresses exactly when
the addresses of the source output, across both groups, are pairwise
distinct. -/
theorem C1_refresh_nodup_of_input_nodup (out : ProfilerOutput)
    (st : AppState) (conn disc : List RawRecord)
    (hout : extractGroups out = some (conn, disc))
    (hnodup : ((conn ++ disc).map fun r => r.fields.device_address).Nodup) :
    ((refreshDevices out st).1.allDevices.map fun d => d.address).Nodup := by
  have hres : (refreshDevices out st).1.allDevices =
      sortDevices (conn.map normalizeConnected ++
        disc.map normalizeDisconnected) := by
    unfold refreshDevices
    rw [hout]
  rw [hres]
  have hperm :
      ((sortDevices (conn.map normalizeConnected ++
          disc.map normalizeDisconnected)).map fun d => d.address).Perm
        ((conn.map normalizeConnected ++
          disc.map normalizeDisconnected).map fun d => d.address) :=
    (sortDevices_perm _).map _
  apply hperm.symm.nodup
  have hmap : ((conn.map normalizeConnected ++
      disc.map normalizeDisconnected).map fun d => d.address) =
      (conn ++ disc).map fun r => r.fields.device_address := by
    simp only [List.map_append, List.map_map]
    rfl
  rw [hmap]
  exact hnodup

/-- Witness: the amended C1 theorem at a concrete two-record output with
distinct addresses. -/
theorem C1_refresh_nodup_of_input_nodup_witness :
    extractGroups distinctAddressOutput =
      some ([recDupConnected], [recDistinct]) ∧
    (([recDupConnected] ++ [recDistinct]).map
      fun r => r.fields.device_address).Nodup ∧
    ((refreshDevices distinctAddressOutput emptyState).1.allDevices.map
      fun d => d.address).Nodup :=
  ⟨rfl, by decide,
    C1_refresh_nodup_of_input_nodup distinctAddressOutput emptyState
      [recDupConnected] [recDistinct] rfl (by decide)⟩

/-- C2 is refuted: with the scanning flag set, a second call to
`startDiscovery` still issues the scan command and is not rejected with
`ConcurrentScanRejected` — the source sets the flag but never consults
it. -/
theorem C2_counterexample :
    scanningState.isScanning = true ∧
    (startDiscovery (.ok []) scanningState).scanCommandIssued = true ∧
    (startDiscovery (.ok []) scanningState).error ≠
      some .concurrentScanRejected := by
  decide

/-- C2 (amended): `startDiscovery` does not serialize scans: whenever
the tool path is set it issues the scan command regardless of the
scanning flag, and no call ever reports `ConcurrentScanRejected`. -/
theorem C2_no_scan_serialization (outcome : ScanOutcome) (st : AppState)
    (hpath : st.blueutilPath ≠ none) :
    (startDiscovery outcome st).scanCommandIssued = true ∧
    (startDiscovery outcome st).error ≠ some .concurrentScanRejected := by
  cases hp : st.blueutilPath with
  | none => exact absurd hp hpath
  | some p => cases outcome <;> simp [startDiscovery, hp]

/-- Witness: the amended C2 theorem at a state whose scanning flag is
already set. -/
theorem C2_no_scan_serialization_witness :
    scanningState.blueutilPath ≠ none ∧
    ((startDiscovery (.ok [freshScanRecord]) scanningState).scanCommandIssued
        = true ∧
      (startDiscovery (.ok [freshScanRecord]) scanningState).error ≠
        some .concurrentScanRejected) :=
  ⟨by decide,
    C2_no_scan_serialization (.ok [freshScanRecord]) scanningState (by decide)⟩

/-- C3 is refuted: when issuing the control command fails,
`toggleConnection` reports the failure but schedules no delayed
re-fetch — the `setTimeout` call sits after `execSync` inside the
`try`, so a throw skips it. -/
theorem C3_counterexample :
    (toggleConnection .fail addrAA false pathState).error =
      some .commandFailed ∧
    (toggleConnection .fail addrAA false pathState).scheduledRefetchDelayMs =
      none := by
  decide

/-- C3 (amended): with the tool path set, the 1000 ms delayed re-fetch
is scheduled exactly when the control command succeeds; a command
failure is reported and no re-fetch is scheduled. -/
theorem C3_refetch_only_on_success (address : Str) (isConnected : Bool)
    (st : AppState) (hpath : st.blueutilPath ≠ none) :
    (toggleConnection .ok address isConnected st).scheduledRefetchDelayMs =
      some 1000 ∧
    (toggleConnection .ok address isConnected st).error = none ∧
    (toggleConnection .fail address isConnected st).scheduledRefetchDelayMs =
      none ∧
    (toggleConnection .fail address isConnected st).error =
      some .commandFailed := by
  cases hp : st.blueutilPath with
  | none => exact absurd hp hpath
  | some p => simp [toggleConnection, hp]

/-- Witness: the amended C3 theorem at a concrete state with a tool
path. -/
theorem C3_refetch_only_on_success_witness :
    pathState.blueutilPath ≠ none ∧
    ((toggleConnection .ok addrAA false pathState).scheduledRefetchDelayMs =
        some 1000 ∧
      (toggleConnection .ok addrAA false pathState).error = none ∧
      (toggleConnection .fail addrAA false pathState).scheduledRefetchDelayMs =
        none ∧
      (toggleConnection .fail addrAA false pathState).error =
        some .commandFailed) :=
  ⟨by decide, C3_refetch_only_on_success addrAA false pathState (by decide)⟩

/-- C4 is refuted: a raw record lacking an address is not rejected and
no error is raised — the refresh succeeds and produces a device with an
absent address for that record. -/
theorem C4_counterexample :
    (refreshDevices noAddressOutput emptyState).2 = none ∧
    (refreshDevices noAddressOutput emptyState).1.allDevices =
      [normalizeConnected recNoAddress] ∧
    (normalizeConnected recNoAddress).address = none := by
  decide

/-- C4 (amended): normalization is total and raises nothing: a record
lacking an address yields a device whose address is absent, and a
refresh keeps every record of the batch (one device per source
record). -/
theorem C4_missing_address_not_rejected (r : RawRecord)
    (hr : r.fields.device_address = none) (conn disc : List RawRecord)
    (st : AppState) :
    (normalizeConnected r).address = none ∧
    (normalizeDisconnected r).address = none ∧
    (refreshDevices (.obj (some [⟨some conn, some disc⟩])) st).2 = none ∧
    (refreshDevices (.obj (some [⟨some conn, some disc⟩]))
        st).1.allDevices.length = conn.length + disc.length := by
  refine ⟨by simp [normalizeConnected, hr],
    by simp [normalizeDisconnected, hr], rfl, ?_⟩
  have hres : (refreshDevices (.obj (some [⟨some conn, some disc⟩]))
      st).1.allDevices =
      sortDevices (conn.map normalizeConnected ++
        disc.map normalizeDisconnected) := rfl
  rw [hres, (sortDevices_perm _).length_eq]
  simp

/-- Witness: the amended C4 theorem at the concrete address-less
record. -/
theorem C4_missing_address_not_rejected_witness :
    recNoAddress.fields.device_address = none ∧
    ((normalizeConnected recNoAddress).address = none ∧
      (normalizeDisconnected recNoAddress).address = none ∧
      (refreshDevices (.obj (some [⟨some [recNoAddress], some []⟩]))
          emptyState).2 = none ∧
      (refreshDevices (.obj (some [⟨some [recNoAddress], some []⟩]))
          emptyState).1.allDevices.length = [recNoAddress].length +
          ([] : List RawRecord).length) :=
  ⟨rfl, C4_missing_address_not_rejected recNoAddress rfl [recNoAddress] []
    emptyState⟩

/-- The matching predicate in the words of the spec, for C5: every
whitespace-separated lowercase term of the query is a case-insensitive
subsequence of the name or of the type. Stated for comparison with the
source function `fuzzySearch`. -/
def matchesSpec (d : BluetoothDevice) (q : Str) : Prop :=
  ∀ term ∈ splitWhitespace (lowerStr q),
    term.Sublist (lowerStr d.name) ∨ term.Sublist (lowerStr (d.type.getD []))

instance (d : BluetoothDevice) (q : Str) : Decidable (matchesSpec d q) := by
  unfold matchesSpec; infer_instance

/-- C5 is refuted: the source splits the query on the space character
only, not on every whitespace character; for a tab-separated query the
spec-worded predicate holds while `fuzzySearch` returns false, so the
claimed equivalence fails. -/
theorem C5_counterexample :
    ¬ (fuzzySearch devAB tabQuery = true ↔ matchesSpec devAB tabQuery) := by
  decide

/-- C5 (amended): the empty query matches every device, and
`fuzzySearch d q` is true iff every space-separated (single space
character, not general whitespace) lowercase term of `q` is a
case-insensitive subsequence of the name or of the type, an absent type
read as the empty string. -/
theorem C5_fuzzySearch_characterization (d : BluetoothDevice) (q : Str) :
    fuzzySearch d [] = true ∧
    (fuzzySearch d q = true ↔
      ∀ term ∈ splitSpace (lowerStr q),
        term.Sublist (lowerStr d.name) ∨
          term.Sublist (lowerStr (d.type.getD []))) := by
  constructor
  · simp [fuzzySearch, splitSpace, splitOnPred, lowerStr, fuzzyMatch_nil]
  · unfold fuzzySearch
    simp only [List.all_eq_true, Bool.or_eq_true]
    constructor
    · intro h term hterm
      rcases h term hterm with h' | h'
      · exact Or.inl ((fuzzyMatch_iff_sublist _ _).mp h')
      · exact Or.inr ((fuzzyMatch_iff_sublist _ _).mp h')
    · intro h term hterm
      rcases h term hterm with h' | h'
      · exact Or.inl ((fuzzyMatch_iff_sublist _ _).mpr h')
      · exact Or.inr ((fuzzyMatch_iff_sublist _ _).mpr h')

/-- C6 (confirmed): after every successful refresh the known-device
list is pairwise ordered — no disconnected device precedes a connected
one, and within one connectivity group names ascend case-insensitively
— and the list depends only on the source output, so repeated refreshes
with identical input yield identical lists. -/
theorem C6_refresh_sorted (out : ProfilerOutput) (st : AppState)
    (conn disc : List RawRecord)
    (hout : extractGroups out = some (conn, disc)) :
    List.Pairwise
      (fun a b => (b.connected = true → a.connected = true) ∧
        (a.connected = b.connected →
          lexLe (lowerStr a.name) (lowerStr b.name) = true))
      ((refreshDevices out st).1.allDevices) ∧
    ∀ st' : AppState,
      (refreshDevices out st).1.allDevices =
        (refreshDevices out st').1.allDevices := by
  have hres : ∀ s : AppState, (refreshDevices out s).1.allDevices =
      sortDevices (conn.map normalizeConnected ++
        disc.map normalizeDisconnected) := by
    intro s
    unfold refreshDevices
    rw [hout]
  refine ⟨?_, fun st' => by rw [hres st, hres st']⟩
  rw [hres st]
  exact (sortDevices_sorted _).imp (fun h => devLE_imp h)

/-- Witness: the C6 theorem at a concrete output, first conjunct. -/
theorem C6_refresh_sorted_witness :
    extractGroups distinctAddressOutput =
      some ([recDupConnected], [recDistinct]) ∧
    List.Pairwise
      (fun a b => (b.connected = true → a.connected = true) ∧
        (a.connected = b.connected →
          lexLe (lowerStr a.name) (lowerStr b.name) = true))
      ((refreshDevices distinctAddressOutput emptyState).1.allDevices) :=
  ⟨rfl,
    (C6_refresh_sorted distinctAddressOutput emptyState [recDupConnected]
      [recDistinct] rfl).1⟩

/-- C7 is refuted: output that parses but lacks the expected structure
below the top-level key — here an entry carrying neither device group —
is treated as two empty groups, so the refresh succeeds without error
and replaces the known-device set with the empty list instead of
retaining the last good snapshot. -/
theorem C7_counterexample :
    oneDeviceState.allDevices ≠ [] ∧
    (refreshDevices missingGroupsOutput oneDeviceState).1.allDevices = [] ∧
    (refreshDevices missingGroupsOutput oneDeviceState).2 = none := by
  decide

/-- C7 (amended): the known-device set is retained and an error
surfaced exactly on the throwing paths — a failed source command,
unparsable JSON, or a parsed object lacking the top-level
`SPBluetoothDataType` key; parsable output missing deeper structure
(JSON null or an empty `SPBluetoothDataType` array, like the entry
without group keys of the counterexample) is instead read as two empty
groups and replaces the set without error. -/
theorem C7_failure_retention (st : AppState) :
    refreshDevices .fail st = (st, some .sourceUnparsable) ∧
    refreshDevices (.obj none) st = (st, some .sourceUnparsable) ∧
    (refreshDevices .nullData st).1.allDevices = [] ∧
    (refreshDevices .nullData st).2 = none ∧
    (refreshDevices (.obj (some [])) st).1.allDevices = [] ∧
    (refreshDevices (.obj (some [])) st).2 = none :=
  ⟨rfl, rfl, rfl, rfl, rfl, rfl⟩

/-- C8 (confirmed): with the empty query the displayed set is the known
list truncated to `maxDevices` without filtering; with a non-empty
query it is the full matching set with no truncation; the `maxDevices`
preference declares default 5 and range 1 to 20. -/
theorem C8_truncation_vs_filter (l : List BluetoothDevice) (m : Nat)
    (q : Str) (hq : q ≠ []) :
    filteredDevices [] l m = l.take m ∧
    filteredDevices q l m = l.filter (fun d => fuzzySearch d q) ∧
    maxDevicesDefault = 5 ∧ maxDevicesMin = 1 ∧ maxDevicesMax = 20 := by
  refine ⟨rfl, ?_, rfl, rfl, rfl⟩
  simp [filteredDevices, hq]

/-- Witness: the C8 theorem at a concrete non-empty query. -/
theorem C8_truncation_vs_filter_witness :
    (['b'] : Str) ≠ [] ∧
    (filteredDevices [] [devAB] 1 = [devAB].take 1 ∧
      filteredDevices ['b'] [devAB] 1 =
        [devAB].filter (fun d => fuzzySearch d ['b']) ∧
      maxDevicesDefault = 5 ∧ maxDevicesMin = 1 ∧ maxDevicesMax = 20) :=
  ⟨by decide, C8_truncation_vs_filter [devAB] 1 ['b'] (by decide)⟩

/-- C9 (confirmed): whenever a discovery scan completes successfully
(no error reported), every device in the resulting discovered set has
an address that was absent from the known addresses at scan start. -/
theorem C9_discovered_excludes_known (outcome : ScanOutcome)
    (st : AppState) (d : BluetoothDevice)
    (hsucc : (startDiscovery outcome st).error = none)
    (hd : d ∈ (startDiscovery outcome st).state.discoveredDevices) :
    d.address ∉ st.allDevices.map (fun k => k.address) := by
  cases hp : st.blueutilPath with
  | none => simp [startDiscovery, hp] at hsucc
  | some p =>
    cases outcome with
    | fail => simp [startDiscovery, hp] at hsucc
    | ok records =>
      simp only [startDiscovery, hp] at hd
      rcases List.mem_map.mp hd with ⟨r, hr, hdr⟩
      rcases List.mem_filter.mp hr with ⟨-, hkeep⟩
      have hnotmem : r.address ∉ st.allDevices.map (fun k => k.address) := by
        simpa using hkeep
      subst hdr
      exact hnotmem

/-- Witness: the C9 theorem at a concrete scan that finds one fresh
address next to one known device. -/
theorem C9_discovered_excludes_known_witness :
    (startDiscovery (.ok [freshScanRecord]) knownState).error = none ∧
    normalizeDiscovered freshScanRecord ∈
      (startDiscovery (.ok [freshScanRecord]) knownState).state.discoveredDevices ∧
    (normalizeDiscovered freshScanRecord).address ∉
      knownState.allDevices.map (fun k => k.address) :=
  ⟨by decide, by decide,
    C9_discovered_excludes_known (.ok [freshScanRecord]) knownState
      (normalizeDiscovered freshScanRecord) (by decide) (by decide)⟩

/-- C10 (confirmed): the discovered-device section always shows the
whole discovered list — it depends neither on the query nor on
`maxDevices` — while filtering and truncation apply only to the paired
section. -/
theorem C10_discovered_unfiltered (st : AppState) (q q' : Str)
    (m m' : Nat) :
    (renderCommand st q m).discoveredSection = st.discoveredDevices ∧
    (renderCommand st q m).discoveredSection =
      (renderCommand st q' m').discoveredSection ∧
    (renderCommand st q m).pairedSection =
      filteredDevices q st.allDevices m := by
  have h : ∀ (r : Str) (n : Nat),
      (renderCommand st r n).discoveredSection = st.discoveredDevices := by
    intro r n
    cases hdd : st.discoveredDevices with
    | nil => simp [renderCommand, hdd]
    | cons a as => simp [renderCommand, hdd]
  exact ⟨h q m, (h q m).trans (h q' m').symm, rfl⟩

end Eblu
